import Mathlib

/-!
Verification of the opencode-automation CLI (src/cli.ts): a shallow
embedding of the sequential prompt orchestrator, its outcome classifier
and the exit-code reporter, with theorems about the claimed behaviour.

Console logging (`console.log`, verbose diagnostics) is an observability
side effect with no influence on any returned value, so it is not part of
the model.
-/

namespace OpencodeAutomation

/-! ## JavaScript value model

The SDK hands the CLI JSON-like payloads (response `error` and `data`
fields).  `JsVal` models such a value; `JsFields` is the field list of an
object (a separate inductive so that all recursions stay structural).
Arrays are not modelled: no payload the claims speak about is an array. -/

mutual

inductive JsVal : Type where
  | vNull : JsVal
  | vBool : Bool → JsVal
  | vNum : Int → JsVal
  | vStr : String → JsVal
  | vObj : JsFields → JsVal

inductive JsFields : Type where
  | fnil : JsFields
  | fcons : String → JsVal → JsFields → JsFields

end

/-- JavaScript truthiness of a value (`if (v)`). -/
def jsTruthy : JsVal → Bool
  | .vNull => false
  | .vBool b => b
  | .vNum n => if n = 0 then false else true
  | .vStr s => if s = "" then false else true
  | .vObj _ => true

/-- JavaScript `String(v)` conversion. -/
def jsToString : JsVal → String
  | .vNull => "null"
  | .vBool b => if b then "true" else "false"
  | .vNum n => toString n
  | .vStr s => s
  | .vObj _ => "[object Object]"

mutual

/-- `JSON.stringify(v)` (escaping of special characters inside strings is
not modelled; no claim depends on it). -/
def jsonStringify : JsVal → String
  | .vNull => "null"
  | .vBool b => if b then "true" else "false"
  | .vNum n => toString n
  | .vStr s => "\"" ++ s ++ "\""
  | .vObj fs => "\x7b" ++ jsonStringifyFields fs ++ "\x7d"

/-- The comma-separated members of a serialized object. -/
def jsonStringifyFields : JsFields → String
  | .fnil => ""
  | .fcons k v .fnil => "\"" ++ k ++ "\":" ++ jsonStringify v
  | .fcons k v (.fcons k2 v2 rest) =>
      "\"" ++ k ++ "\":" ++ jsonStringify v ++ "," ++ jsonStringifyFields (.fcons k2 v2 rest)

end

/-- Object member access: `key in obj` together with `obj[key]`. -/
def getField : JsFields → String → Option JsVal
  | .fnil, _ => none
  | .fcons k v rest, key => if k = key then some v else getField rest key

/-- `key in obj && obj[key]`: the field is present and truthy. -/
def fieldTruthy (fs : JsFields) (key : String) : Bool :=
  match getField fs key with
  | some v => jsTruthy v
  | none => false

/-- The field's value when present (`.vNull`, i.e. a falsy placeholder,
otherwise). -/
def getFieldD (fs : JsFields) (key : String) : JsVal :=
  match getField fs key with
  | some v => v
  | none => .vNull

/-- Truthiness of an optional response field (absent = `undefined` = falsy). -/
def optValTruthy : Option JsVal → Bool
  | some v => jsTruthy v
  | none => false

/-! ## Thrown faults and `formatErrorDetails` (cli.ts lines 54-90)

A value thrown by the transport layer is either an `Error` instance —
message, the optional Node.js system-error fields `code`, `syscall`,
`hostname`, `port`, and an optional `cause` — or any other JavaScript
value. -/

inductive JsThrown : Type where
  | jsValue : JsVal → JsThrown
  | jsError : (message : String) → (code : Option String) → (syscall : Option String) →
      (hostname : Option String) → (port : Option Int) → (cause : Option JsThrown) → JsThrown

/-- Truthiness of a thrown value: `Error` instances are objects, hence
truthy; other values follow `jsTruthy`. -/
def jsThrownTruthy : JsThrown → Bool
  | .jsValue v => jsTruthy v
  | .jsError _ _ _ _ _ _ => true

/-- `e !== null && typeof e === "object"` for a plain value. -/
def isObjVal : JsVal → Bool
  | .vObj _ => true
  | _ => false

/-- `sysErr.port ?? ""` rendered into the Host template. -/
def portStr : Option Int → String
  | some p => toString p
  | none => ""

/-- The inner `extractError(e, depth)` of `formatErrorDetails`: the parts
pushed, in push order.  Processing stops once `depth > 3`; an `Error`
contributes its message (prefixed with "Caused by: " below the top level),
then its truthy `code`/`syscall`/`hostname` diagnostic lines, then the
parts of its truthy `cause` one level deeper; a non-`Error` object is
serialized and any other value is `String(e)`-converted. -/
def extractError : JsThrown → Nat → List String
  | .jsError msg code syscall hostname port cause, depth =>
      if 3 < depth then []
      else
        ((if depth = 0 then [msg] else ["Caused by: " ++ msg])
          ++ (match code with
              | some c => if c = "" then [] else ["  Code: " ++ c]
              | none => [])
          ++ (match syscall with
              | some s => if s = "" then [] else ["  Syscall: " ++ s]
              | none => [])
          ++ (match hostname with
              | some hn => if hn = "" then [] else ["  Host: " ++ hn ++ ":" ++ portStr port]
              | none => [])
          ++ (match cause with
              | some c => if jsThrownTruthy c then extractError c (depth + 1) else []
              | none => []))
  | .jsValue v, depth =>
      if 3 < depth then []
      else if isObjVal v then [jsonStringify v] else [jsToString v]

/-- `formatErrorDetails(err, verbose)`: the collected parts joined with
`"\n  "` (the verbose branch only logs and contributes no part). -/
def formatErrorDetails (err : JsThrown) : String :=
  String.intercalate "\n  " (extractError err 0)

/-! ## SDK responses and the per-prompt client behaviour

cli.ts's two SDK calls return `{ error?, data? }` envelopes or throw.
`ClientBehavior` is the server's reaction to one prompt's execution: what
`client.session.create`, `client.session.prompt` and
`client.session.delete` would each return or throw.  The prompt text
itself only feeds the session title and the submitted message body, so it
does not influence the modelled outcome. -/

/-- The error types of cli.ts lines 16-20 (`"none"`/`"tool"`/`"sdk"`). -/
inductive ErrorType : Type where
  | none : ErrorType
  | tool : ErrorType
  | sdk : ErrorType
deriving DecidableEq

/-- `RunPromptResult` (cli.ts lines 32-36). -/
structure RunPromptResult where
  success : Bool
  errorType : ErrorType
  resultText : String
deriving DecidableEq

/-- `sessionResponse.data`: the created session's record. -/
structure SessionData where
  id : String
deriving DecidableEq

/-- The `client.session.create` response envelope. -/
structure SessionCreateResponse where
  error : Option JsVal
  data : Option SessionData

/-- The `client.session.prompt` response envelope. -/
structure PromptResponse where
  error : Option JsVal
  data : Option JsVal

/-- An SDK call either returns a response or throws a fault. -/
inductive CallResult (α : Type) : Type where
  | ok : α → CallResult α
  | thrown : JsThrown → CallResult α

/-- The server's reaction to the three SDK calls of one prompt run. -/
structure ClientBehavior where
  createResponse : CallResult SessionCreateResponse
  promptResponse : CallResult PromptResponse
  deleteResult : CallResult Unit

/-- `JSON.stringify(promptResponse)`, the fallback when the prompt
response's `data` is absent or not a truthy object: the envelope
serialized as an object, `undefined` members omitted. -/
def promptResponseJson (r : PromptResponse) : JsVal :=
  .vObj (match r.error, r.data with
    | some e, some d => .fcons "error" e (.fcons "data" d .fnil)
    | some e, none => .fcons "error" e .fnil
    | none, some d => .fcons "data" d .fnil
    | none, none => .fnil)

/-- The result-text extraction of cli.ts lines 153-171: when `data` is a
truthy object, probe the fields `text`, `content`, `message`, `result` in
order and keep the first truthy one (`String`-converted); otherwise
serialize `data` itself, and when `data` is not a truthy object serialize
the whole response envelope. -/
def extractResultText (resp : PromptResponse) : String :=
  match resp.data with
  | some (.vObj fs) =>
      if fieldTruthy fs "text" then jsToString (getFieldD fs "text")
      else if fieldTruthy fs "content" then jsToString (getFieldD fs "content")
      else if fieldTruthy fs "message" then jsToString (getFieldD fs "message")
      else if fieldTruthy fs "result" then jsToString (getFieldD fs "result")
      else jsonStringify (.vObj fs)
  | _ => jsonStringify (promptResponseJson resp)

/-- Truthiness of the `sessionId` variable (`let sessionId: string |
undefined`): `undefined` is falsy, a string is truthy iff nonempty. -/
def optStrTruthy : Option String → Bool
  | some s => if s = "" then false else true
  | none => false

/-- The `try`/`catch` body of `runPrompt` (cli.ts lines 104-185), paired
with the value the mutable `sessionId` variable holds when the body
finishes: `none` until `sessionId = sessionResponse.data.id` runs, that
id afterwards. -/
def runPromptTry (cb : ClientBehavior) : RunPromptResult × Option String :=
  match cb.createResponse with
  | .thrown e =>
      ({ success := false, errorType := .sdk,
         resultText := "SDK Error: " ++ formatErrorDetails e }, none)
  | .ok sresp =>
      if optValTruthy sresp.error || sresp.data.isNone then
        let errorMsg :=
          if optValTruthy sresp.error then
            jsonStringify (sresp.error.getD .vNull)
          else "Failed to create session"
        ({ success := false, errorType := .sdk,
           resultText := "Session creation failed: " ++ errorMsg }, none)
      else
        -- sessionId = sessionResponse.data.id (the guard above ensured
        -- data is present, so the getD default is unreachable)
        let sessionId := (sresp.data.getD { id := "" }).id
        match cb.promptResponse with
        | .thrown e =>
            ({ success := false, errorType := .sdk,
               resultText := "SDK Error: " ++ formatErrorDetails e }, some sessionId)
        | .ok presp =>
            if optValTruthy presp.error then
              ({ success := false, errorType := .tool,
                 resultText := jsonStringify (presp.error.getD .vNull) }, some sessionId)
            else
              ({ success := true, errorType := .none,
                 resultText := extractResultText presp }, some sessionId)

/-- `runPrompt` with its `finally` block (cli.ts lines 186-198) made
explicit: the pending result, and whether the session delete call was
made.  The `finally` block guards the call with `if (sessionId)` — the
id must be assigned and truthy — and wraps it in `try { ... } catch
\x7b\x7d`, so either way it returns the pending result unchanged. -/
def runPromptFull (cb : ClientBehavior) : RunPromptResult × Bool :=
  match runPromptTry cb with
  | (pending, sessionId) =>
      if optStrTruthy sessionId then
        (match cb.deleteResult with
         | .ok _ => (pending, true)
         | .thrown _ => (pending, true))
      else (pending, false)

/-- `runPrompt(client, prompt, options)` (cli.ts lines 96-199). -/
def runPrompt (cb : ClientBehavior) : RunPromptResult :=
  (runPromptFull cb).1

/-- The `sessionId` variable's value when the `try`/`catch` body of
`runPrompt` finishes. -/
def runPromptSessionId (cb : ClientBehavior) : Option String :=
  (runPromptTry cb).2

/-- Whether `runPrompt`'s `finally` block called `client.session.delete`. -/
def sessionDeleteAttempted (cb : ClientBehavior) : Bool :=
  (runPromptFull cb).2

/-! ## The sequential orchestrator (cli.ts lines 219-307)

The loop walks the prompt list in order; the server's reaction to the
`i`-th attempted prompt is `client i`.  The worker functions carry the
current index; the source functions fix it at 0. -/

/-- `PromptEntry` (cli.ts lines 38-41). -/
structure PromptEntry where
  name : String
  content : String
deriving DecidableEq

/-- The two policy flags of `SequentialRunOptions` (cli.ts lines 201-207)
that the loop consumes. -/
structure SequentialRunOptions where
  stopOnSdkError : Bool
  stopOnToolError : Bool
deriving DecidableEq

/-- The defaults of the CLI surface: `--stop-on-tool-error` defaults to
false, `--no-stop-on-sdk-error` is off so `stopOnSdkError` is true. -/
def defaultOptions : SequentialRunOptions :=
  { stopOnSdkError := true, stopOnToolError := false }

/-- `RunSummary` (cli.ts lines 209-213). -/
structure RunSummary where
  completed : Nat
  toolErrors : Nat
  sdkErrors : Nat
deriving DecidableEq

/-- The per-prompt loop of `runPromptsSequential` (cli.ts lines 252-294)
starting at index `i`: classify via `runPrompt`, apply the
early-termination policy, accumulate the counters. -/
def runPromptsGo (client : Nat → ClientBehavior) (opts : SequentialRunOptions) :
    Nat → List PromptEntry → RunSummary
  | _, [] => { completed := 0, toolErrors := 0, sdkErrors := 0 }
  | i, _ :: rest =>
      let result := runPrompt (client i)
      match result.errorType with
      | .sdk =>
          if opts.stopOnSdkError then
            { completed := 0, toolErrors := 0, sdkErrors := 1 }
          else
            let s := runPromptsGo client opts (i + 1) rest
            { completed := s.completed, toolErrors := s.toolErrors,
              sdkErrors := s.sdkErrors + 1 }
      | .tool =>
          if opts.stopOnToolError then
            { completed := 0, toolErrors := 1, sdkErrors := 0 }
          else
            let s := runPromptsGo client opts (i + 1) rest
            { completed := s.completed + 1, toolErrors := s.toolErrors + 1,
              sdkErrors := s.sdkErrors }
      | .none =>
          let s := runPromptsGo client opts (i + 1) rest
          { completed := s.completed + 1, toolErrors := s.toolErrors,
            sdkErrors := s.sdkErrors }

/-- `runPromptsSequential(client, prompts, options)` as in
src/unnamed/part_001 lines 205-261 (identical to the loop body of cli.ts
lines 251-306 once the client exists): the loop from index 0. -/
def runPromptsSequential (client : Nat → ClientBehavior) (prompts : List PromptEntry)
    (opts : SequentialRunOptions) : RunSummary :=
  runPromptsGo client opts 0 prompts

/-- How many prompts the loop starting at index `i` attempts (calls
`runPrompt` for): every prompt up to and including the one that triggers
a policy `break`. -/
def attemptedGo (client : Nat → ClientBehavior) (opts : SequentialRunOptions) :
    Nat → List PromptEntry → Nat
  | _, [] => 0
  | i, _ :: rest =>
      match (runPrompt (client i)).errorType with
      | .sdk =>
          if opts.stopOnSdkError then 1 else 1 + attemptedGo client opts (i + 1) rest
      | .tool =>
          if opts.stopOnToolError then 1 else 1 + attemptedGo client opts (i + 1) rest
      | .none => 1 + attemptedGo client opts (i + 1) rest

/-- The number of prompts `runPromptsSequential` attempts. -/
def promptsAttempted (client : Nat → ClientBehavior) (prompts : List PromptEntry)
    (opts : SequentialRunOptions) : Nat :=
  attemptedGo client opts 0 prompts

/-- Whether the loop starting at index `i` exits through a policy `break`
(early termination) rather than by exhausting the list. -/
def earlyTerminatedGo (client : Nat → ClientBehavior) (opts : SequentialRunOptions) :
    Nat → List PromptEntry → Bool
  | _, [] => false
  | i, _ :: rest =>
      match (runPrompt (client i)).errorType with
      | .sdk =>
          if opts.stopOnSdkError then true else earlyTerminatedGo client opts (i + 1) rest
      | .tool =>
          if opts.stopOnToolError then true else earlyTerminatedGo client opts (i + 1) rest
      | .none => earlyTerminatedGo client opts (i + 1) rest

/-- Whether `runPromptsSequential` terminates early (exits via `break`). -/
def earlyTerminated (client : Nat → ClientBehavior) (prompts : List PromptEntry)
    (opts : SequentialRunOptions) : Bool :=
  earlyTerminatedGo client opts 0 prompts

/-- How many of the `len` outcomes starting at index `i` are tool errors. -/
def toolOutcomeCountGo (client : Nat → ClientBehavior) : Nat → Nat → Nat
  | _, 0 => 0
  | i, len + 1 =>
      (if (runPrompt (client i)).errorType = .tool then 1 else 0)
        + toolOutcomeCountGo client (i + 1) len

/-- `runPromptsSequential` of cli.ts (lines 219-307), which first runs
`createOpencode`: when construction throws, the run aborts before the
loop and reports every prompt as an SDK error (lines 240-247). -/
def runPromptsSequentialCli (createFails : Bool) (client : Nat → ClientBehavior)
    (prompts : List PromptEntry) (opts : SequentialRunOptions) : RunSummary :=
  if createFails then
    { completed := 0, toolErrors := 0, sdkErrors := prompts.length }
  else runPromptsSequential client prompts opts

/-- The number of prompts attempted by the cli.ts variant: none when
client construction fails. -/
def promptsAttemptedCli (createFails : Bool) (client : Nat → ClientBehavior)
    (prompts : List PromptEntry) (opts : SequentialRunOptions) : Nat :=
  if createFails then 0 else promptsAttempted client prompts opts

/-- The exit-code decision of `main` (cli.ts lines 504-511). -/
def exitCode (s : RunSummary) : Nat :=
  if s.sdkErrors > 0 then 1 else if s.toolErrors > 0 then 2 else 0

/-! ## Concrete behaviours used in scenarios and counterexamples -/

/-- A server reaction that makes the prompt succeed with a text field. -/
def successBehavior : ClientBehavior :=
  { createResponse := .ok { error := none, data := some { id := "s1" } },
    promptResponse := .ok
      { error := none,
        data := some (.vObj (.fcons "text" (.vStr "done") .fnil)) },
    deleteResult := .ok () }

/-- A server reaction where the remote run reports a tool failure. -/
def toolErrorBehavior : ClientBehavior :=
  { createResponse := .ok { error := none, data := some { id := "s2" } },
    promptResponse := .ok
      { error := some (.vObj (.fcons "message" (.vStr "test failed") .fnil)),
        data := none },
    deleteResult := .ok () }

/-- A server reaction where session creation throws a transport fault. -/
def sdkErrorBehavior : ClientBehavior :=
  { createResponse := .thrown (.jsError "fetch failed" (some "ECONNREFUSED")
      (some "connect") (some "localhost") (some 4096) none),
    promptResponse := .ok { error := none, data := none },
    deleteResult := .ok () }

/-- Three prompts, as in the spec's scenarios. -/
def threePrompts : List PromptEntry :=
  [{ name := "prompt-1", content := "one" },
   { name := "prompt-2", content := "two" },
   { name := "prompt-3", content := "three" }]

/-- A server whose second reaction (index 1) is an SDK fault. -/
def scenarioSdkClient : Nat → ClientBehavior
  | 1 => sdkErrorBehavior
  | _ => successBehavior

/-- A server whose second reaction (index 1) is a tool error. -/
def scenarioToolClient : Nat → ClientBehavior
  | 1 => toolErrorBehavior
  | _ => successBehavior

/-- Two prompts. -/
def twoPrompts : List PromptEntry :=
  [{ name := "prompt-1", content := "one" }, { name := "prompt-2", content := "two" }]

/-- A server whose first reaction is a tool error and whose later
reactions are SDK faults. -/
def toolThenSdkClient : Nat → ClientBehavior
  | 0 => toolErrorBehavior
  | _ => sdkErrorBehavior

/-- A chain of `Error` values carrying only messages: the head message,
then one nested `cause` per further message. -/
def errorChain : String → List String → JsThrown
  | m, [] => .jsError m none none none none none
  | m, m2 :: rest => .jsError m none none none none (some (errorChain m2 rest))

/-! ## Theorems -/

/-- The `finally` block never changes the result: `runPrompt` returns the
pending result of the `try`/`catch` body. -/
theorem runPrompt_eq_try (cb : ClientBehavior) : runPrompt cb = (runPromptTry cb).1 := by
  unfold runPrompt runPromptFull
  rcases h : runPromptTry cb with ⟨pending, sid⟩
  by_cases hs : optStrTruthy sid <;> cases cb.deleteResult <;> simp [hs]

/-- C4: For every final summary, the process exit code is 1 if
`sdkErrors > 0`, else 2 if `toolErrors > 0`, else 0, independently of the
relative magnitude of the two error counts (illustrated by a summary with
more tool errors than SDK errors still exiting 1). -/
theorem claim_c4_exit_code :
    (∀ s : RunSummary,
        (0 < s.sdkErrors → exitCode s = 1)
        ∧ (s.sdkErrors = 0 → 0 < s.toolErrors → exitCode s = 2)
        ∧ (s.sdkErrors = 0 → s.toolErrors = 0 → exitCode s = 0))
    ∧ exitCode { completed := 0, toolErrors := 5, sdkErrors := 1 } = 1
    ∧ exitCode { completed := 0, toolErrors := 1, sdkErrors := 0 } = 2 := by
  refine ⟨fun s => ⟨?_, ?_, ?_⟩, by decide, by decide⟩ <;>
    · intros
      simp only [exitCode]
      split <;> try split
      all_goals omega

/-- C7: If client construction fails before the per-prompt loop starts,
the run aborts with no prompt attempted and the summary reports every
input prompt as an SDK error. -/
theorem claim_c7_setup_failure (client : Nat → ClientBehavior)
    (prompts : List PromptEntry) (opts : SequentialRunOptions) (_h : prompts ≠ []) :
    runPromptsSequentialCli true client prompts opts
      = { completed := 0, toolErrors := 0, sdkErrors := prompts.length }
    ∧ promptsAttemptedCli true client prompts opts = 0 := by
  exact ⟨rfl, rfl⟩

/-- C7 witness: client construction failure on the three-prompt input. -/
theorem claim_c7_setup_failure_witness :
    runPromptsSequentialCli true scenarioSdkClient threePrompts defaultOptions
      = { completed := 0, toolErrors := 0, sdkErrors := threePrompts.length }
    ∧ promptsAttemptedCli true scenarioSdkClient threePrompts defaultOptions = 0 :=
  claim_c7_setup_failure scenarioSdkClient threePrompts defaultOptions (by decide)

/-- With `stopOnToolError = false`, every attempted non-stopping prompt
(success or tool error) is counted in `completed`, so `completed +
sdkErrors` equals the attempted count, from any start index. -/
theorem sumGo_eq_attemptedGo_of_not_stop_tool (client : Nat → ClientBehavior)
    (opts : SequentialRunOptions) (hs : opts.stopOnToolError = false) :
    ∀ (prompts : List PromptEntry) (i : Nat),
      (runPromptsGo client opts i prompts).completed
          + (runPromptsGo client opts i prompts).sdkErrors
        = attemptedGo client opts i prompts := by
  intro prompts
  induction prompts with
  | nil => intro i; simp [runPromptsGo, attemptedGo]
  | cons p rest ih =>
      intro i
      have hrec := ih (i + 1)
      rcases h : (runPrompt (client i)).errorType
      · simp [runPromptsGo, attemptedGo, h]
        omega
      · simp [runPromptsGo, attemptedGo, h, hs]
        omega
      · by_cases hk : opts.stopOnSdkError <;> simp [runPromptsGo, attemptedGo, h, hk]
        all_goals omega

/-- With `stopOnToolError = true`, a tool error stops the run without
being counted in `completed`, so the three counters add up to the
attempted count, from any start index. -/
theorem sumGo_eq_attemptedGo_of_stop_tool (client : Nat → ClientBehavior)
    (opts : SequentialRunOptions) (hs : opts.stopOnToolError = true) :
    ∀ (prompts : List PromptEntry) (i : Nat),
      (runPromptsGo client opts i prompts).completed
          + (runPromptsGo client opts i prompts).toolErrors
          + (runPromptsGo client opts i prompts).sdkErrors
        = attemptedGo client opts i prompts := by
  intro prompts
  induction prompts with
  | nil => intro i; simp [runPromptsGo, attemptedGo]
  | cons p rest ih =>
      intro i
      have hrec := ih (i + 1)
      rcases h : (runPrompt (client i)).errorType
      · simp [runPromptsGo, attemptedGo, h]
        omega
      · simp [runPromptsGo, attemptedGo, h, hs]
      · by_cases hk : opts.stopOnSdkError <;> simp [runPromptsGo, attemptedGo, h, hk]
        all_goals omega

/-- The loop never attempts more prompts than the input holds. -/
theorem attemptedGo_le (client : Nat → ClientBehavior) (opts : SequentialRunOptions) :
    ∀ (prompts : List PromptEntry) (i : Nat),
      attemptedGo client opts i prompts ≤ prompts.length := by
  intro prompts
  induction prompts with
  | nil => intro i; simp [attemptedGo]
  | cons p rest ih =>
      intro i
      have hrec := ih (i + 1)
      rcases h : (runPrompt (client i)).errorType
      · simp [attemptedGo, h]
        omega
      · by_cases hs : opts.stopOnToolError <;> simp [attemptedGo, h, hs]
        all_goals omega
      · by_cases hs : opts.stopOnSdkError <;> simp [attemptedGo, h, hs]
        all_goals omega

/-- When the loop exits without a policy `break`, every prompt was
attempted. -/
theorem attemptedGo_of_not_early (client : Nat → ClientBehavior) (opts : SequentialRunOptions) :
    ∀ (prompts : List PromptEntry) (i : Nat),
      earlyTerminatedGo client opts i prompts = false →
      attemptedGo client opts i prompts = prompts.length := by
  intro prompts
  induction prompts with
  | nil => intro i _; simp [attemptedGo]
  | cons p rest ih =>
      intro i hne
      have hrec := ih (i + 1)
      rcases h : (runPrompt (client i)).errorType
      · simp [attemptedGo, earlyTerminatedGo, h] at hne ⊢
        have := hrec hne
        omega
      · by_cases hs : opts.stopOnToolError <;>
          simp [attemptedGo, earlyTerminatedGo, h, hs] at hne ⊢
        have := hrec hne
        omega
      · by_cases hs : opts.stopOnSdkError <;>
          simp [attemptedGo, earlyTerminatedGo, h, hs] at hne ⊢
        have := hrec hne
        omega

/-- C1 (amended): After `runPromptsSequential` terminates, the attempted
count obeys: with `stopOnToolError = false` a non-fatal tool error is
counted in both `completed` and `toolErrors`, so `completed + sdkErrors`
(not the three-way sum) equals the number of prompts attempted; with
`stopOnToolError = true` the three-way sum does equal it.  The attempted
count is at most the input length, and equals it whenever no early
termination occurred (a `break` at the last prompt also leaves every
prompt attempted). -/
theorem claim_c1_summary_counts :
    ∀ (client : Nat → ClientBehavior) (prompts : List PromptEntry)
      (opts : SequentialRunOptions),
      (opts.stopOnToolError = false →
        (runPromptsSequential client prompts opts).completed
            + (runPromptsSequential client prompts opts).sdkErrors
          = promptsAttempted client prompts opts)
      ∧ (opts.stopOnToolError = true →
        (runPromptsSequential client prompts opts).completed
            + (runPromptsSequential client prompts opts).toolErrors
            + (runPromptsSequential client prompts opts).sdkErrors
          = promptsAttempted client prompts opts)
      ∧ promptsAttempted client prompts opts ≤ prompts.length
      ∧ (earlyTerminated client prompts opts = false →
          promptsAttempted client prompts opts = prompts.length) := by
  intro client prompts opts
  exact ⟨fun hs => sumGo_eq_attemptedGo_of_not_stop_tool client opts hs prompts 0,
    fun hs => sumGo_eq_attemptedGo_of_stop_tool client opts hs prompts 0,
    attemptedGo_le client opts prompts 0,
    fun hne => attemptedGo_of_not_early client opts prompts 0 hne⟩

/-- C1 counterexample: a tool error followed by an SDK error under the
default policy attempts both prompts; the summary is
`completed = 1, toolErrors = 1, sdkErrors = 1`, whose three-way sum 3
differs from the 2 prompts attempted, and the loop broke at the last
prompt, so attempted = total even though early termination occurred. -/
theorem claim_c1_cex :
    ¬ (((runPromptsSequential toolThenSdkClient twoPrompts defaultOptions).completed
          + (runPromptsSequential toolThenSdkClient twoPrompts defaultOptions).toolErrors
          + (runPromptsSequential toolThenSdkClient twoPrompts defaultOptions).sdkErrors
        = promptsAttempted toolThenSdkClient twoPrompts defaultOptions)
      ∧ (promptsAttempted toolThenSdkClient twoPrompts defaultOptions = twoPrompts.length
          ↔ earlyTerminated toolThenSdkClient twoPrompts defaultOptions = false)) := by
  decide

/-- With `stopOnSdkError = true`, when the `k`-th outcome (counting from
start index `i`) is the first SDK error and no earlier outcome stops the
run, the loop attempts exactly `k + 1` prompts, records one SDK error and
completes the `k` prompts before it. -/
theorem firstSdkGo (client : Nat → ClientBehavior) (opts : SequentialRunOptions)
    (hstop : opts.stopOnSdkError = true) :
    ∀ (prompts : List PromptEntry) (k i : Nat),
      k < prompts.length →
      (runPrompt (client (i + k))).errorType = .sdk →
      (∀ j, j < k → (runPrompt (client (i + j))).errorType ≠ .sdk
        ∧ ((runPrompt (client (i + j))).errorType = .tool → opts.stopOnToolError = false)) →
      attemptedGo client opts i prompts = k + 1
      ∧ (runPromptsGo client opts i prompts).sdkErrors = 1
      ∧ (runPromptsGo client opts i prompts).completed = k := by
  intro prompts
  induction prompts with
  | nil => intro k i hk _ _; simp at hk
  | cons p rest ih =>
      intro k i hk hsdk hprev
      cases k with
      | zero =>
          rw [Nat.add_zero] at hsdk
          simp [attemptedGo, runPromptsGo, hsdk, hstop]
      | succ k =>
          have h0 := hprev 0 (Nat.succ_pos k)
          rw [Nat.add_zero] at h0
          have hk' : k < rest.length := by
            simpa using Nat.lt_of_succ_lt_succ hk
          have hsdk' : (runPrompt (client (i + 1 + k))).errorType = .sdk := by
            rw [show i + 1 + k = i + (k + 1) from by omega]
            exact hsdk
          have hprev' : ∀ j, j < k → (runPrompt (client (i + 1 + j))).errorType ≠ .sdk
              ∧ ((runPrompt (client (i + 1 + j))).errorType = .tool →
                  opts.stopOnToolError = false) := by
            intro j hj
            have := hprev (j + 1) (Nat.succ_lt_succ hj)
            rwa [show i + (j + 1) = i + 1 + j from by omega] at this
          have hrec := ih k (i + 1) hk' hsdk' hprev'
          rcases h : (runPrompt (client i)).errorType
          · simp [attemptedGo, runPromptsGo, h, hrec.1, hrec.2.1, hrec.2.2]
            omega
          · have hst := h0.2 h
            simp [attemptedGo, runPromptsGo, h, hst, hrec.1, hrec.2.1, hrec.2.2]
            omega
          · exact absurd h h0.1

/-- C2: With `stopOnSdkError = true` the loop terminates at the first
prompt whose outcome is an SDK error, without counting it as completed,
and attempts nothing after it; in particular 3 prompts whose 2nd fails
with an SDK error under the default policy yield the summary
`completed = 1, toolErrors = 0, sdkErrors = 1`, exit code 1, with only
2 prompts attempted. -/
theorem claim_c2_stop_on_sdk :
    (∀ (client : Nat → ClientBehavior) (prompts : List PromptEntry)
        (opts : SequentialRunOptions) (k : Nat),
        opts.stopOnSdkError = true →
        k < prompts.length →
        (runPrompt (client k)).errorType = .sdk →
        (∀ j, j < k → (runPrompt (client j)).errorType ≠ .sdk
          ∧ ((runPrompt (client j)).errorType = .tool → opts.stopOnToolError = false)) →
        promptsAttempted client prompts opts = k + 1
        ∧ (runPromptsSequential client prompts opts).sdkErrors = 1
        ∧ (runPromptsSequential client prompts opts).completed = k)
    ∧ runPromptsSequential scenarioSdkClient threePrompts defaultOptions
        = { completed := 1, toolErrors := 0, sdkErrors := 1 }
    ∧ exitCode (runPromptsSequential scenarioSdkClient threePrompts defaultOptions) = 1
    ∧ promptsAttempted scenarioSdkClient threePrompts defaultOptions = 2 := by
  refine ⟨?_, by decide, by decide, by decide⟩
  intro client prompts opts k hstop hk hsdk hprev
  have h := firstSdkGo client opts hstop prompts k 0 hk
    (by simpa using hsdk) (fun j hj => by simpa using hprev j hj)
  exact h

/-- With `stopOnToolError = false`, when no outcome is an SDK error the
loop attempts every prompt, never breaks, counts every prompt as
completed, and records exactly the tool-error outcomes in `toolErrors`. -/
theorem noSdkGo (client : Nat → ClientBehavior) (opts : SequentialRunOptions)
    (hs : opts.stopOnToolError = false) :
    ∀ (prompts : List PromptEntry) (i : Nat),
      (∀ j, j < prompts.length → (runPrompt (client (i + j))).errorType ≠ .sdk) →
      runPromptsGo client opts i prompts
        = { completed := prompts.length,
            toolErrors := toolOutcomeCountGo client i prompts.length,
            sdkErrors := 0 }
      ∧ attemptedGo client opts i prompts = prompts.length
      ∧ earlyTerminatedGo client opts i prompts = false := by
  intro prompts
  induction prompts with
  | nil =>
      intro i _
      simp [runPromptsGo, attemptedGo, earlyTerminatedGo, toolOutcomeCountGo]
  | cons p rest ih =>
      intro i hno
      have h0 := hno 0 (by simp)
      rw [Nat.add_zero] at h0
      have hrec := ih (i + 1) (fun j hj => by
        have := hno (j + 1) (by simpa using Nat.succ_lt_succ hj)
        rwa [show i + (j + 1) = i + 1 + j from by omega] at this)
      rcases h : (runPrompt (client i)).errorType
      · simp [runPromptsGo, attemptedGo, earlyTerminatedGo, toolOutcomeCountGo, h,
          hrec.1, hrec.2.1, hrec.2.2, RunSummary.mk.injEq]
        omega
      · simp [runPromptsGo, attemptedGo, earlyTerminatedGo, toolOutcomeCountGo, h, hs,
          hrec.1, hrec.2.1, hrec.2.2, RunSummary.mk.injEq]
        omega
      · exact absurd h h0

/-- C3: With `stopOnToolError = false`, a tool error increments both
`toolErrors` and `completed` and execution continues: when no SDK error
occurs, every prompt is attempted and completed, `toolErrors` counts
exactly the tool-error outcomes and the loop never breaks; in particular
3 prompts whose 2nd returns a tool error under the default policy yield
the summary `completed = 3, toolErrors = 1, sdkErrors = 0`, exit code 2,
with all 3 prompts attempted. -/
theorem claim_c3_tool_error_continues :
    (∀ (client : Nat → ClientBehavior) (prompts : List PromptEntry)
        (opts : SequentialRunOptions),
        opts.stopOnToolError = false →
        (∀ j, j < prompts.length → (runPrompt (client j)).errorType ≠ .sdk) →
        runPromptsSequential client prompts opts
          = { completed := prompts.length,
              toolErrors := toolOutcomeCountGo client 0 prompts.length,
              sdkErrors := 0 }
        ∧ promptsAttempted client prompts opts = prompts.length
        ∧ earlyTerminated client prompts opts = false)
    ∧ runPromptsSequential scenarioToolClient threePrompts defaultOptions
        = { completed := 3, toolErrors := 1, sdkErrors := 0 }
    ∧ exitCode (runPromptsSequential scenarioToolClient threePrompts defaultOptions) = 2
    ∧ promptsAttempted scenarioToolClient threePrompts defaultOptions = 3 := by
  refine ⟨?_, by decide, by decide, by decide⟩
  intro client prompts opts hs hno
  exact noSdkGo client opts hs prompts 0 (fun j hj => by simpa using hno j hj)

/-- The `finally` block makes the delete call exactly when the assigned
`sessionId` is truthy (`if (sessionId)`, cli.ts line 188). -/
theorem deleteAttempted_iff_truthy_id (cb : ClientBehavior) :
    sessionDeleteAttempted cb = optStrTruthy (runPromptSessionId cb) := by
  unfold sessionDeleteAttempted runPromptSessionId runPromptFull
  rcases h : runPromptTry cb with ⟨pending, sid⟩
  by_cases hs : optStrTruthy sid <;> cases cb.deleteResult <;> simp [hs]

/-- C5: The classifier maps outcomes as follows.  A session-creation
response carrying a truthy error payload or no data yields `sdk`, with
resultText the fixed prefix "Session creation failed: " followed by the
serialized error (or the fixed fallback message when no error payload is
present).  A prompt-submission response carrying a truthy error payload
yields `tool`, with resultText the serialized error payload.  A fault
thrown by the transport layer during either call yields `sdk`. -/
theorem claim_c5_classifier :
    (∀ (cb : ClientBehavior) (r : SessionCreateResponse),
        cb.createResponse = .ok r →
        (optValTruthy r.error = true ∨ r.data = none) →
        (runPrompt cb).errorType = .sdk
        ∧ (runPrompt cb).resultText
            = "Session creation failed: "
              ++ (if optValTruthy r.error then jsonStringify (r.error.getD .vNull)
                  else "Failed to create session"))
    ∧ (∀ (cb : ClientBehavior) (sresp : SessionCreateResponse) (sd : SessionData)
          (presp : PromptResponse),
        cb.createResponse = .ok sresp → optValTruthy sresp.error = false →
        sresp.data = some sd →
        cb.promptResponse = .ok presp → optValTruthy presp.error = true →
        (runPrompt cb).errorType = .tool
        ∧ (runPrompt cb).resultText = jsonStringify (presp.error.getD .vNull))
    ∧ (∀ (cb : ClientBehavior) (e : JsThrown),
        cb.createResponse = .thrown e →
        (runPrompt cb).errorType = .sdk
        ∧ (runPrompt cb).resultText = "SDK Error: " ++ formatErrorDetails e)
    ∧ (∀ (cb : ClientBehavior) (sresp : SessionCreateResponse) (sd : SessionData)
          (e : JsThrown),
        cb.createResponse = .ok sresp → optValTruthy sresp.error = false →
        sresp.data = some sd →
        cb.promptResponse = .thrown e →
        (runPrompt cb).errorType = .sdk
        ∧ (runPrompt cb).resultText = "SDK Error: " ++ formatErrorDetails e) := by
  refine ⟨?_, ?_, ?_, ?_⟩
  · intro cb r hc hbad
    rcases cb with ⟨cr, pr, dr⟩
    dsimp only at hc
    subst hc
    have hcond : (optValTruthy r.error || r.data.isNone) = true := by
      rcases hbad with hb | hb <;> simp [hb]
    simp [runPrompt_eq_try, runPromptTry, hcond]
  · intro cb sresp sd presp hc he hd hp hpe
    rcases cb with ⟨cr, pr, dr⟩
    dsimp only at hc hp
    subst hc
    subst hp
    simp [runPrompt_eq_try, runPromptTry, he, hd, hpe]
  · intro cb e hc
    rcases cb with ⟨cr, pr, dr⟩
    dsimp only at hc
    subst hc
    simp [runPrompt_eq_try, runPromptTry]
  · intro cb sresp sd e hc he hd hp
    rcases cb with ⟨cr, pr, dr⟩
    dsimp only at hc hp
    subst hc
    subst hp
    simp [runPrompt_eq_try, runPromptTry, he, hd]

/-- C6: Whenever a session was created with a usable id (session
creation returned data whose id passes the `if (sessionId)` truthiness
guard), the delete call is attempted — whatever the prompt submission
then did (success, tool error or thrown fault); in general the `finally`
block makes the call exactly when the assigned id is truthy; and a
failing delete is swallowed: the outcome of `runPrompt` does not depend
on the delete call's result in any way. -/
theorem claim_c6_session_release :
    (∀ (cb : ClientBehavior) (sresp : SessionCreateResponse) (sd : SessionData),
        cb.createResponse = .ok sresp → optValTruthy sresp.error = false →
        sresp.data = some sd → sd.id ≠ "" →
        sessionDeleteAttempted cb = true)
    ∧ (∀ cb : ClientBehavior,
        sessionDeleteAttempted cb = optStrTruthy (runPromptSessionId cb))
    ∧ (∀ (cb : ClientBehavior) (d : CallResult Unit),
        runPrompt { cb with deleteResult := d } = runPrompt cb) := by
  refine ⟨?_, deleteAttempted_iff_truthy_id, ?_⟩
  · intro cb sresp sd hc he hd hid
    rw [deleteAttempted_iff_truthy_id]
    rcases cb with ⟨cr, pr, dr⟩
    dsimp only at hc
    subst hc
    unfold runPromptSessionId runPromptTry
    rcases pr with presp | e
    · simp only [he, hd]
      split
      · simp_all
      · split <;> simp [optStrTruthy, hid]
    · simp [he, hd, optStrTruthy, hid]
  · intro cb d
    rw [runPrompt_eq_try, runPrompt_eq_try]
    rcases cb with ⟨cr, pr, dr⟩
    rfl

/-- C8: On a successful prompt submission the result text probes the
response body's fields in the priority order text, content, message,
result, keeping the first truthy one; when the body is an object none of
whose four fields is truthy, the result text is the body's full
serialization. -/
theorem claim_c8_result_text :
    (∀ (resp : PromptResponse) (fs : JsFields),
        resp.data = some (.vObj fs) →
        (fieldTruthy fs "text" = true →
            extractResultText resp = jsToString (getFieldD fs "text"))
        ∧ (fieldTruthy fs "text" = false → fieldTruthy fs "content" = true →
            extractResultText resp = jsToString (getFieldD fs "content"))
        ∧ (fieldTruthy fs "text" = false → fieldTruthy fs "content" = false →
            fieldTruthy fs "message" = true →
            extractResultText resp = jsToString (getFieldD fs "message"))
        ∧ (fieldTruthy fs "text" = false → fieldTruthy fs "content" = false →
            fieldTruthy fs "message" = false → fieldTruthy fs "result" = true →
            extractResultText resp = jsToString (getFieldD fs "result"))
        ∧ (fieldTruthy fs "text" = false → fieldTruthy fs "content" = false →
            fieldTruthy fs "message" = false → fieldTruthy fs "result" = false →
            extractResultText resp = jsonStringify (.vObj fs)))
    ∧ (∀ (cb : ClientBehavior) (sresp : SessionCreateResponse) (sd : SessionData)
          (presp : PromptResponse),
        cb.createResponse = .ok sresp → optValTruthy sresp.error = false →
        sresp.data = some sd →
        cb.promptResponse = .ok presp → optValTruthy presp.error = false →
        (runPrompt cb).success = true
        ∧ (runPrompt cb).resultText = extractResultText presp) := by
  constructor
  · intro resp fs hd
    rcases resp with ⟨err, dat⟩
    dsimp only at hd
    subst hd
    refine ⟨?_, ?_, ?_, ?_, ?_⟩ <;> intros <;>
      simp_all [extractResultText]
  · intro cb sresp sd presp hc he hd hp hpe
    rcases cb with ⟨cr, pr, dr⟩
    dsimp only at hc hp
    subst hc
    subst hp
    simp [runPrompt_eq_try, runPromptTry, he, hd, hpe]

/-- Once past the depth cap the extraction contributes nothing (the cap
check at depth 4, reached from a chain node at depth 3). -/
theorem extractError_errorChain_four (m : String) (ms : List String) :
    extractError (errorChain m ms) 4 = [] := by
  cases ms <;> simp [errorChain, extractError]

/-- A chain node is an `Error` instance, hence truthy. -/
theorem jsThrownTruthy_errorChain (m : String) (ms : List String) :
    jsThrownTruthy (errorChain m ms) = true := by
  cases ms <;> simp [errorChain, jsThrownTruthy]

/-- Extraction of a message-only cause chain from any depth `d ≤ 3`:
the node's message followed by the next `3 - d` cause messages, each
prefixed with "Caused by: ". -/
theorem extractError_chain (ms : List String) : ∀ (m : String) (d : Nat), d ≤ 3 →
    extractError (errorChain m ms) d
      = (if d = 0 then m else "Caused by: " ++ m)
          :: (ms.take (3 - d)).map (fun s => "Caused by: " ++ s) := by
  induction ms with
  | nil =>
      intro m d hd
      by_cases hd0 : d = 0 <;>
        simp [errorChain, extractError, Nat.not_lt.mpr hd, hd0]
  | cons m2 rest ih =>
      intro m d hd
      rcases Nat.lt_or_ge d 3 with hlt | hge
      · have hrec := ih m2 (d + 1) hlt
        have htake : 3 - d = (3 - (d + 1)) + 1 := by omega
        rw [htake]
        rcases Nat.eq_zero_or_pos d with hd0 | hd0
        · subst hd0
          simp [errorChain, extractError, jsThrownTruthy_errorChain, hrec,
            List.take_succ_cons]
        · have hne : d ≠ 0 := by omega
          simp [errorChain, extractError, Nat.not_lt.mpr hd, hne,
            jsThrownTruthy_errorChain, hrec, List.take_succ_cons]
      · have hd3 : d = 3 := le_antisymm hd hge
        subst hd3
        simp [errorChain, extractError, jsThrownTruthy_errorChain,
          extractError_errorChain_four]

/-- C9: The fault formatter unwraps the cause chain to at most depth 3 —
the top message plus the first three cause messages, in order, later
levels omitted — and emits the error-code, syscall and host:port
diagnostic lines of a level exactly when the fields are present (and
truthy), producing only the message when all are absent; the formatted
text joins the collected parts. -/
theorem claim_c9_error_unwrap :
    (∀ (m : String) (ms : List String),
        extractError (errorChain m ms) 0
          = m :: (ms.take 3).map (fun s => "Caused by: " ++ s))
    ∧ (∀ (m c s hn : String) (p : Int), c ≠ "" → s ≠ "" → hn ≠ "" →
        extractError (.jsError m (some c) (some s) (some hn) (some p) none) 0
          = [m, "  Code: " ++ c, "  Syscall: " ++ s, "  Host: " ++ hn ++ ":" ++ toString p])
    ∧ (∀ m : String, extractError (.jsError m none none none none none) 0 = [m])
    ∧ (∀ (m hn : String), hn ≠ "" →
        extractError (.jsError m none none (some hn) none none) 0
          = [m, "  Host: " ++ hn ++ ":"])
    ∧ (∀ e : JsThrown,
        formatErrorDetails e = String.intercalate "\n  " (extractError e 0)) := by
  refine ⟨?_, ?_, ?_, ?_, fun e => rfl⟩
  · intro m ms
    simpa using extractError_chain ms m 0 (by omega)
  · intro m c s hn p hc hs hhn
    simp [extractError, portStr, hc, hs, hhn]
  · intro m
    simp [extractError]
  · intro m hn hhn
    simp [extractError, portStr, hhn]

/-- C10: On every return path of `runPrompt`, the `success` flag is true
exactly when the error classification is `none`: the boolean is redundant
with `errorType`. -/
theorem claim_c10_success_iff_none :
    ∀ cb : ClientBehavior, (runPrompt cb).success = true ↔ (runPrompt cb).errorType = ErrorType.none := by
  intro cb
  rw [runPrompt_eq_try]
  rcases cb with ⟨cr, pr, dr⟩
  rcases cr with sresp | e
  · rcases pr with presp | e2
    · unfold runPromptTry
      dsimp only
      split
      · simp
      · split <;> simp
    · unfold runPromptTry
      dsimp only
      split <;> simp
  · unfold runPromptTry
    simp

end OpencodeAutomation
